import Mathlib

/-!
Verification development for the Belle smart-home voice-assistant core.

Shallow embedding of the resilience layer (`belle/http.py`), the entity
resolver, the control tools (`belle/tools/*.py`), the conversation store
(`belle/conversation.py`) and the tool-dispatch loop (`belle/llm/common.py`).
Wall-clock reads (`time.time()`) are modelled by passing the current time
explicitly as a rational number; float arithmetic is modelled by exact
rational arithmetic.
-/

/-- Circuit states, from `CircuitState` in `http.py`. -/
inductive CircuitState where
  | closed
  | open'
  | halfOpen
  deriving DecidableEq, Repr

/-- State of `CircuitBreaker` in `http.py`: configuration plus the four
mutable fields `_state`, `_failure_count`, `_last_failure_time`,
`_half_open_calls`. -/
structure CircuitBreaker where
  failure_threshold : Nat
  recovery_timeout : ℚ
  half_open_max_calls : Nat
  state : CircuitState
  failure_count : Nat
  last_failure_time : ℚ
  half_open_calls : Nat
  deriving DecidableEq, Repr

/-- A freshly constructed breaker (`CircuitBreaker.__init__`). -/
def CircuitBreaker.mk' (threshold : Nat) (timeout : ℚ) (maxCalls : Nat) :
    CircuitBreaker :=
  { failure_threshold := threshold
    recovery_timeout := timeout
    half_open_max_calls := maxCalls
    state := .closed
    failure_count := 0
    last_failure_time := 0
    half_open_calls := 0 }

/-- The `state` property getter: while open, once `now - last_failure_time`
reaches `recovery_timeout` the breaker moves to half-open and resets the
half-open call counter. Returns the updated breaker (the getter mutates). -/
def CircuitBreaker.checkState (cb : CircuitBreaker) (now : ℚ) : CircuitBreaker :=
  if cb.state = .open' ∧ now - cb.last_failure_time ≥ cb.recovery_timeout then
    { cb with state := .halfOpen, half_open_calls := 0 }
  else cb

/-- The `is_available` method: reads the state (triggering the recovery-timeout
check), then: closed is available, half-open is available while
`half_open_calls < half_open_max_calls`, open is unavailable. -/
def CircuitBreaker.is_available (cb : CircuitBreaker) (now : ℚ) :
    Bool × CircuitBreaker :=
  let cb' := cb.checkState now
  match cb'.state with
  | .closed => (true, cb')
  | .halfOpen => (decide (cb'.half_open_calls < cb'.half_open_max_calls), cb')
  | .open' => (false, cb')

/-- The `record_success` method. -/
def CircuitBreaker.record_success (cb : CircuitBreaker) : CircuitBreaker :=
  { cb with state := .closed, failure_count := 0, half_open_calls := 0 }

/-- The `record_failure` method: increments the failure count, stamps the
failure time, re-opens from half-open, and opens from closed once the
threshold is reached. -/
def CircuitBreaker.record_failure (cb : CircuitBreaker) (now : ℚ) :
    CircuitBreaker :=
  let cb' := { cb with failure_count := cb.failure_count + 1,
                       last_failure_time := now }
  if cb.state = .halfOpen then { cb' with state := .open' }
  else if cb'.failure_count ≥ cb.failure_threshold then
    { cb' with state := .open' }
  else cb'

/-- The shared breaker for the smart-home API
(`_api_circuit_breaker = CircuitBreaker(failure_threshold=5,
recovery_timeout=30.0)`, with the default `half_open_max_calls=1`). -/
def apiCircuitBreaker : CircuitBreaker := CircuitBreaker.mk' 5 30 1

/-- Five failures recorded at time 0 on the shared breaker. -/
def cbAfterFiveFailures : CircuitBreaker :=
  ((((apiCircuitBreaker.record_failure 0).record_failure 0).record_failure
      0).record_failure 0).record_failure 0

/-- C1: the breaker opens after five failures and transitions to half-open
once the recovery timeout elapses — but `_half_open_calls` is never
incremented anywhere in the class, so with `half_open_max_calls = 1` a
second `is_available` read in half-open (with no recorded outcome in
between) still returns true: more than `halfOpenMaxCalls` trial calls are
permitted, contradicting both the claim and the constructor's own
documentation of `half_open_max_calls`. -/
theorem circuitBreaker_halfOpen_cap_unenforced :
    cbAfterFiveFailures.state = .open' ∧
    cbAfterFiveFailures.half_open_max_calls = 1 ∧
    (cbAfterFiveFailures.is_available 30).1 = true ∧
    ((cbAfterFiveFailures.is_available 30).2.is_available 30).1 = true ∧
    ((cbAfterFiveFailures.is_available 30).2.is_available 30).2.half_open_calls
      = 0 := by
  simp +decide [cbAfterFiveFailures, apiCircuitBreaker, CircuitBreaker.mk',
    CircuitBreaker.record_failure, CircuitBreaker.is_available,
    CircuitBreaker.checkState]

/-- Errors an operation wrapped by `with_retry` can raise, following the
exception classes distinguished by `is_retryable_error` in `http.py`. -/
inductive HttpError where
  | statusError (code : Nat)
  | connectError
  | timeoutException
  | readError
  | otherException
  deriving DecidableEq, Repr

/-- `RETRYABLE_STATUS_CODES` from `http.py`. -/
def RETRYABLE_STATUS_CODES : List Nat := [500, 502, 503, 504, 429]

/-- `is_retryable_error` from `http.py`: retry on a listed status code or on a
connection/timeout/read failure; everything else is not retryable. -/
def is_retryable_error : HttpError → Bool
  | .statusError c => RETRYABLE_STATUS_CODES.contains c
  | .connectError => true
  | .timeoutException => true
  | .readError => true
  | .otherException => false

/-- What a `with_retry`-wrapped call raises: either the fail-fast
`CircuitBreakerOpen` or the propagated operation error. -/
inductive RetryError where
  | circuitOpen
  | httpError (e : HttpError)
  deriving DecidableEq, Repr

/-- Observable outcome of one `with_retry`-wrapped invocation: the returned
value or raised error, the number of times the wrapped function ran, the
final breaker state, and ghost counters for how many times
`record_failure` / `record_success` were invoked on the breaker. -/
structure RetryResult (α : Type) where
  result : Except RetryError α
  attempts : Nat
  cb : CircuitBreaker
  failure_reports : Nat
  success_reports : Nat

/-- The retry loop of `wrapper` in `with_retry` (`http.py`). The wrapped
function is modelled as `op : Nat → Except HttpError α` giving the outcome of
each 0-indexed attempt, and `times i` is the wall-clock time of attempt `i`.
`remaining` counts the retries still allowed (`max_retries - attempt` in the
source's `for attempt in range(max_retries + 1)` loop): on a retryable error
with `remaining = 0` the loop exhausts and the last error is raised. Each
retryable error is reported to the breaker via `record_failure`; a
non-retryable error re-raises immediately. -/
def with_retry_loop (op : Nat → Except HttpError α) (times : Nat → ℚ) :
    Nat → Nat → CircuitBreaker → Nat → Nat → RetryResult α
  | 0, attempt, cb, fr, sr =>
    match op attempt with
    | .ok v => ⟨.ok v, attempt + 1, cb.record_success, fr, sr + 1⟩
    | .error e =>
      let rb := is_retryable_error e
      ⟨.error (.httpError e), attempt + 1,
        if rb then cb.record_failure (times attempt) else cb,
        if rb then fr + 1 else fr, sr⟩
  | rem + 1, attempt, cb, fr, sr =>
    match op attempt with
    | .ok v => ⟨.ok v, attempt + 1, cb.record_success, fr, sr + 1⟩
    | .error e =>
      let rb := is_retryable_error e
      let cb' := if rb then cb.record_failure (times attempt) else cb
      let fr' := if rb then fr + 1 else fr
      if rb = false then ⟨.error (.httpError e), attempt + 1, cb', fr', sr⟩
      else with_retry_loop op times rem (attempt + 1) cb' fr' sr

/-- The `wrapper` of `with_retry` (`http.py`) with a circuit breaker
configured: first the availability check (raising `CircuitBreakerOpen`
without running the operation), then the retry loop starting at attempt 0. -/
def with_retry (op : Nat → Except HttpError α) (times : Nat → ℚ)
    (max_retries : Nat) (cb : CircuitBreaker) : RetryResult α :=
  let av := cb.is_available (times 0)
  if av.1 = false then ⟨.error .circuitOpen, 0, av.2, 0, 0⟩
  else with_retry_loop op times max_retries 0 av.2 0 0

lemma with_retry_loop_nonretryable (op : Nat → Except HttpError α)
    (times : Nat → ℚ) (k : Nat) (ek : HttpError)
    (hop : op k = .error ek) (hek : is_retryable_error ek = false) :
    ∀ rem a cb fr sr, a ≤ k → k ≤ a + rem →
      (∀ i, a ≤ i → i < k → ∃ e, op i = .error e ∧ is_retryable_error e = true) →
      (with_retry_loop op times rem a cb fr sr).result = .error (.httpError ek) ∧
      (with_retry_loop op times rem a cb fr sr).attempts = k + 1 ∧
      (with_retry_loop op times rem a cb fr sr).failure_reports = fr + (k - a) := by
  intro rem
  induction rem with
  | zero =>
    intro a cb fr sr hak hka _
    have hak' : a = k := by omega
    subst hak'
    simp [with_retry_loop, hop, hek]
  | succ n ih =>
    intro a cb fr sr hak hka hpre
    rcases Nat.eq_or_lt_of_le hak with h | h
    · subst h
      simp [with_retry_loop, hop, hek]
    · obtain ⟨e, hopa, hre⟩ := hpre a le_rfl h
      have H := ih (a + 1) (cb.record_failure (times a)) (fr + 1) sr
        (by omega) (by omega) (fun i hi hik => hpre i (by omega) hik)
      simp only [with_retry_loop, hopa, hre, if_true, Bool.true_eq_false,
        if_false, ite_true, ite_false]
      exact ⟨H.1, H.2.1, by rw [H.2.2]; omega⟩

lemma with_retry_loop_success (op : Nat → Except HttpError α)
    (times : Nat → ℚ) (k : Nat) (v : α) (hop : op k = .ok v) :
    ∀ rem a cb fr sr, a ≤ k → k ≤ a + rem →
      (∀ i, a ≤ i → i < k → ∃ e, op i = .error e ∧ is_retryable_error e = true) →
      (with_retry_loop op times rem a cb fr sr).result = .ok v ∧
      (with_retry_loop op times rem a cb fr sr).attempts = k + 1 ∧
      (with_retry_loop op times rem a cb fr sr).failure_reports = fr + (k - a) ∧
      (with_retry_loop op times rem a cb fr sr).success_reports = sr + 1 := by
  intro rem
  induction rem with
  | zero =>
    intro a cb fr sr hak hka _
    have hak' : a = k := by omega
    subst hak'
    simp [with_retry_loop, hop]
  | succ n ih =>
    intro a cb fr sr hak hka hpre
    rcases Nat.eq_or_lt_of_le hak with h | h
    · subst h
      simp [with_retry_loop, hop]
    · obtain ⟨e, hopa, hre⟩ := hpre a le_rfl h
      have H := ih (a + 1) (cb.record_failure (times a)) (fr + 1) sr
        (by omega) (by omega) (fun i hi hik => hpre i (by omega) hik)
      simp only [with_retry_loop, hopa, hre, if_true, Bool.true_eq_false,
        if_false, ite_true, ite_false]
      exact ⟨H.1, H.2.1, by rw [H.2.2.1]; omega, H.2.2.2⟩

lemma with_retry_loop_exhaust (op : Nat → Except HttpError α)
    (times : Nat → ℚ) :
    ∀ rem a cb fr sr elast,
      op (a + rem) = .error elast → is_retryable_error elast = true →
      (∀ i, a ≤ i → i < a + rem → ∃ e, op i = .error e ∧ is_retryable_error e = true) →
      (with_retry_loop op times rem a cb fr sr).result = .error (.httpError elast) ∧
      (with_retry_loop op times rem a cb fr sr).attempts = a + rem + 1 ∧
      (with_retry_loop op times rem a cb fr sr).failure_reports = fr + rem + 1 := by
  intro rem
  induction rem with
  | zero =>
    intro a cb fr sr elast hlast hrl _
    simp only [Nat.add_zero] at hlast
    simp [with_retry_loop, hlast, hrl]
  | succ n ih =>
    intro a cb fr sr elast hlast hrl hpre
    obtain ⟨e, hopa, hre⟩ := hpre a le_rfl (by omega)
    have H := ih (a + 1) (cb.record_failure (times a)) (fr + 1) sr elast
      (by simpa [show a + 1 + n = a + (n + 1) by omega] using hlast) hrl
      (fun i hi hik => hpre i (by omega) (by omega))
    simp only [with_retry_loop, hopa, hre, if_true, Bool.true_eq_false,
      if_false, ite_true, ite_false]
    exact ⟨H.1, by rw [H.2.1]; omega, by rw [H.2.2]; omega⟩

/-- C3: with an available breaker, (1) a non-retryable error at attempt `k`
(after only retryable failures) propagates at once — the operation is not
re-attempted and the non-retryable failure is not reported to the breaker;
(2) if every attempt fails retryably the loop runs `max_retries + 1` attempts,
reports every failure to the breaker, and raises the last error; (3) a success
at attempt `k` stops the loop there, with the `k` earlier retryable failures
all reported. -/
theorem with_retry_semantics (op : Nat → Except HttpError α)
    (times : Nat → ℚ) (max_retries : Nat) (cb : CircuitBreaker)
    (hav : (cb.is_available (times 0)).1 = true) :
    (∀ k ek, k ≤ max_retries →
      (∀ i, i < k → ∃ e, op i = .error e ∧ is_retryable_error e = true) →
      op k = .error ek → is_retryable_error ek = false →
      (with_retry op times max_retries cb).result = .error (.httpError ek) ∧
      (with_retry op times max_retries cb).attempts = k + 1 ∧
      (with_retry op times max_retries cb).failure_reports = k) ∧
    (∀ elast,
      (∀ i, i < max_retries → ∃ e, op i = .error e ∧ is_retryable_error e = true) →
      op max_retries = .error elast → is_retryable_error elast = true →
      (with_retry op times max_retries cb).result = .error (.httpError elast) ∧
      (with_retry op times max_retries cb).attempts = max_retries + 1 ∧
      (with_retry op times max_retries cb).failure_reports = max_retries + 1) ∧
    (∀ k v, k ≤ max_retries →
      (∀ i, i < k → ∃ e, op i = .error e ∧ is_retryable_error e = true) →
      op k = .ok v →
      (with_retry op times max_retries cb).result = .ok v ∧
      (with_retry op times max_retries cb).attempts = k + 1 ∧
      (with_retry op times max_retries cb).failure_reports = k) := by
  have hw : with_retry op times max_retries cb =
      with_retry_loop op times max_retries 0 (cb.is_available (times 0)).2 0 0 := by
    simp [with_retry, hav]
  refine ⟨?_, ?_, ?_⟩
  · intro k ek hk hpre hop hek
    have := with_retry_loop_nonretryable op times k ek hop hek max_retries 0
      (cb.is_available (times 0)).2 0 0 (Nat.zero_le _) (by omega)
      (fun i _ hik => hpre i hik)
    rw [hw]
    simpa using this
  · intro elast hpre hop hrl
    have := with_retry_loop_exhaust op times max_retries 0
      (cb.is_available (times 0)).2 0 0 elast (by simpa using hop) hrl
      (fun i _ hik => hpre i (by omega))
    rw [hw]
    constructor
    · exact this.1
    constructor
    · simpa using this.2.1
    · simpa using this.2.2
  · intro k v hk hpre hop
    have := with_retry_loop_success op times k v hop max_retries 0
      (cb.is_available (times 0)).2 0 0 (Nat.zero_le _) (by omega)
      (fun i _ hik => hpre i hik)
    rw [hw]
    exact ⟨this.1, by simpa using this.2.1, by simpa using this.2.2.1⟩

/-- An operation that always fails with HTTP 400 (non-retryable). -/
def opAlways400 : Nat → Except HttpError Unit := fun _ => .error (.statusError 400)

/-- An operation that always fails with HTTP 503 (retryable). -/
def opAlways503 : Nat → Except HttpError Unit := fun _ => .error (.statusError 503)

/-- Witness for C3: a 400 propagates with a single attempt and no breaker
report; four consecutive 503s exhaust the default three retries with four
attempts and four breaker reports. -/
theorem with_retry_semantics_witness :
    ((with_retry opAlways400 (fun _ => 0) 3
        apiCircuitBreaker).result = .error (.httpError (.statusError 400)) ∧
      (with_retry opAlways400 (fun _ => 0) 3
        apiCircuitBreaker).attempts = 1 ∧
      (with_retry opAlways400 (fun _ => 0) 3
        apiCircuitBreaker).failure_reports = 0) ∧
    ((with_retry opAlways503 (fun _ => 0) 3
        apiCircuitBreaker).result = .error (.httpError (.statusError 503)) ∧
      (with_retry opAlways503 (fun _ => 0) 3
        apiCircuitBreaker).attempts = 4 ∧
      (with_retry opAlways503 (fun _ => 0) 3
        apiCircuitBreaker).failure_reports = 4) := by
  have hav : ((apiCircuitBreaker.is_available ((fun _ => (0 : ℚ)) 0))).1 = true := by
    simp +decide [apiCircuitBreaker, CircuitBreaker.mk', CircuitBreaker.is_available,
      CircuitBreaker.checkState]
  refine ⟨?_, ?_⟩
  · exact (with_retry_semantics opAlways400 (fun _ => 0) 3 apiCircuitBreaker hav).1
      0 (.statusError 400) (Nat.zero_le _)
      (fun i hi => absurd hi (Nat.not_lt_zero i)) rfl (by decide)
  · exact (with_retry_semantics opAlways503 (fun _ => 0) 3 apiCircuitBreaker hav).2.1
      (.statusError 503) (fun i _ => ⟨.statusError 503, rfl, by decide⟩) rfl (by decide)

/-- Retry-configuration defaults from `http.py` (`DEFAULT_BASE_DELAY = 0.5`,
`DEFAULT_MAX_DELAY = 10.0`, `DEFAULT_EXPONENTIAL_BASE = 2`). -/
def DEFAULT_BASE_DELAY : ℚ := 1/2

/-- Default delay ceiling in seconds. -/
def DEFAULT_MAX_DELAY : ℚ := 10

/-- Default exponential base. -/
def DEFAULT_EXPONENTIAL_BASE : ℚ := 2

/-- `calculate_backoff` from `http.py`, with the `random.random()` draw made
an explicit parameter `r ∈ [0,1)`:
`delay = min(base_delay * exponential_base ** attempt, max_delay)` followed by
`jitter = delay * 0.25 * (2 * r - 1)`, returning `delay + jitter`. -/
def calculate_backoff (attempt : Nat) (base_delay max_delay exponential_base r : ℚ) : ℚ :=
  let delay := min (base_delay * exponential_base ^ attempt) max_delay
  let jitter := delay * (1/4) * (2 * r - 1)
  delay + jitter

/-- The expectation of `calculate_backoff` over the uniform jitter draw
(the jitter term has mean zero, so this is the un-jittered delay). -/
def expected_backoff (attempt : Nat) (base_delay max_delay exponential_base : ℚ) : ℚ :=
  min (base_delay * exponential_base ^ attempt) max_delay

/-- C4 (amended): the computed delay is exactly `min(base*e^n, max)` times the
jitter factor `1 + (2r-1)/4`, which lies in `[3/4, 5/4)` for `r ∈ [0,1)`;
hence `delay(n) ≤ maxDelay * 5/4` for every `n`; at the mean draw `r = 1/2`
the delay equals `expected_backoff`; and the 1.5-fold expected growth
`expected(n+1) ≥ 3/2 * expected(n)` holds while the cap is not yet binding
(`base * 2^(n+1) ≤ maxDelay`) — but not for all `n`, see the
counterexample. -/
theorem calculate_backoff_props (n : Nat) (b M e r : ℚ)
    (hb : 0 ≤ b) (hM : 0 ≤ M) (he : 0 ≤ e) (hr0 : 0 ≤ r) (hr1 : r < 1) :
    calculate_backoff n b M e r = expected_backoff n b M e * (1 + (2 * r - 1) / 4) ∧
    3 / 4 ≤ 1 + (2 * r - 1) / 4 ∧
    1 + (2 * r - 1) / 4 < 5 / 4 ∧
    calculate_backoff n b M e r ≤ M * (5 / 4) ∧
    calculate_backoff n b M e (1 / 2) = expected_backoff n b M e ∧
    (b * 2 ^ (n + 1) ≤ M →
      expected_backoff (n + 1) b M 2 ≥ (3 / 2) * expected_backoff n b M 2) := by
  have hd0 : 0 ≤ min (b * e ^ n) M := le_min (by positivity) hM
  have hdM : min (b * e ^ n) M ≤ M := min_le_right _ _
  refine ⟨?_, by linarith, by linarith, ?_, ?_, ?_⟩
  · simp only [calculate_backoff, expected_backoff]
    ring
  · simp only [calculate_backoff]
    nlinarith [hd0, hdM]
  · simp only [calculate_backoff, expected_backoff]
    ring
  · intro hcap
    have h2n : (0 : ℚ) ≤ b * 2 ^ n := by positivity
    have hmono : b * 2 ^ n ≤ b * 2 ^ (n + 1) := by
      have : (2 : ℚ) ^ n ≤ 2 ^ (n + 1) := by
        have := pow_le_pow_right₀ (by norm_num : (1 : ℚ) ≤ 2) (Nat.le_succ n)
        exact this
      exact mul_le_mul_of_nonneg_left this hb
    have hn1 : expected_backoff (n + 1) b M 2 = b * 2 ^ (n + 1) := by
      simp only [expected_backoff]
      exact min_eq_left hcap
    have hn : expected_backoff n b M 2 = b * 2 ^ n := by
      simp only [expected_backoff]
      exact min_eq_left (le_trans hmono hcap)
    rw [hn1, hn]
    have : b * 2 ^ (n + 1) = 2 * (b * 2 ^ n) := by ring
    rw [this]
    linarith

/-- Witness for C4: the amended properties evaluated at attempt 0 with the
default configuration and the jitter draw `r = 1/4`. -/
theorem calculate_backoff_props_witness :
    calculate_backoff 0 DEFAULT_BASE_DELAY DEFAULT_MAX_DELAY 2 (1/4) ≤
      DEFAULT_MAX_DELAY * (5 / 4) ∧
    expected_backoff 1 DEFAULT_BASE_DELAY DEFAULT_MAX_DELAY 2 ≥
      (3 / 2) * expected_backoff 0 DEFAULT_BASE_DELAY DEFAULT_MAX_DELAY 2 := by
  have h := calculate_backoff_props 0 DEFAULT_BASE_DELAY DEFAULT_MAX_DELAY 2 (1/4)
    (by norm_num [DEFAULT_BASE_DELAY]) (by norm_num [DEFAULT_MAX_DELAY])
    (by norm_num) (by norm_num) (by norm_num)
  exact ⟨h.2.2.2.1, h.2.2.2.2.2 (by norm_num [DEFAULT_BASE_DELAY, DEFAULT_MAX_DELAY])⟩

/-- Counterexample for C4 as stated: with the default
`baseDelay = 0.5, maxDelay = 10`, the expected delay of attempt 5 is 10
(capped) while attempt 4 expects 8, and `10 < 1.5 * 8`: the claimed
`delay(n+1) ≥ delay(n) * 1.5` in expectation fails at `n = 4`. -/
theorem calculate_backoff_growth_fails_at_cap :
    ¬ ((3 / 2) * expected_backoff 4 DEFAULT_BASE_DELAY DEFAULT_MAX_DELAY 2 ≤
        expected_backoff 5 DEFAULT_BASE_DELAY DEFAULT_MAX_DELAY 2) := by
  norm_num [expected_backoff, DEFAULT_BASE_DELAY, DEFAULT_MAX_DELAY, min_def]

/-- State of `RequestDeduplicator` in `http.py`: the window in milliseconds
and the `_recent` dict, modelled as an insertion-ordered association list
with unique keys (a Python dict). The `make_key` hash is modelled by the key
string itself. -/
structure RequestDeduplicator where
  window_ms : ℚ
  recent : List (String × ℚ)

/-- Python dict assignment `d[k] = v`: overwrite in place if the key is
present, else append. -/
def dictSet (l : List (String × ℚ)) (k : String) (v : ℚ) : List (String × ℚ) :=
  if l.any (fun kv => kv.1 == k) then
    l.map (fun kv => if kv.1 == k then (k, v) else kv)
  else l ++ [(k, v)]

/-- Value stored for a key, if any. -/
def lookupKey (l : List (String × ℚ)) (k : String) : Option ℚ :=
  (l.find? (fun kv => kv.1 == k)).map (fun kv => kv.2)

/-- The surviving entries of `_cleanup_expired`: keep exactly the entries
with `now - v ≤ window` (the source deletes those with `now - v > window`). -/
def filt (w now : ℚ) (l : List (String × ℚ)) : List (String × ℚ) :=
  l.filter (fun kv => decide (now - kv.2 ≤ w))

/-- `RequestDeduplicator.is_duplicate` from `http.py`: prune expired entries,
report a duplicate (leaving the entry's timestamp untouched) if the key is
present with age strictly below the window, otherwise stamp the key at `now`
and report a fresh request. -/
def RequestDeduplicator.is_duplicate (d : RequestDeduplicator) (now : ℚ)
    (key : String) : Bool × RequestDeduplicator :=
  let recent := filt d.window_ms now d.recent
  match recent.find? (fun kv => kv.1 == key) with
  | some kv =>
    if now - kv.2 < d.window_ms then (true, { d with recent := recent })
    else (false, { d with recent := dictSet recent key now })
  | none => (false, { d with recent := dictSet recent key now })

lemma find?_key_append (key : String) (t : ℚ) :
    ∀ l : List (String × ℚ), (∀ kv ∈ l, kv.1 ≠ key) →
      (l ++ [(key, t)]).find? (fun kv => kv.1 == key) = some (key, t) := by
  intro l
  induction l with
  | nil => intro _; simp [List.find?]
  | cons a as ih =>
    intro h
    have ha : (a.1 == key) = false := by
      simpa using h a (List.mem_cons_self a as)
    simpa [List.find?, ha] using ih (fun kv hkv => h kv (List.mem_cons_of_mem a hkv))

lemma find?_fresh_none (key : String) (l : List (String × ℚ))
    (h : ∀ kv ∈ l, kv.1 ≠ key) :
    l.find? (fun kv => kv.1 == key) = none := by
  rw [List.find?_eq_none]
  intro kv hkv
  simpa using h kv hkv

lemma filt_fresh (w now : ℚ) (key : String) (l : List (String × ℚ))
    (h : ∀ kv ∈ l, kv.1 ≠ key) :
    ∀ kv ∈ filt w now l, kv.1 ≠ key := by
  intro kv hkv
  exact h kv (List.mem_of_mem_filter hkv)

lemma filt_append_keep (w now t : ℚ) (key : String) (l : List (String × ℚ))
    (h : now - t ≤ w) :
    filt w now (l ++ [(key, t)]) = filt w now l ++ [(key, t)] := by
  simp only [filt, List.filter_append]
  congr 1
  simp
  linarith

lemma filt_append_drop (w now t : ℚ) (key : String) (l : List (String × ℚ))
    (h : ¬ (now - t ≤ w)) :
    filt w now (l ++ [(key, t)]) = filt w now l := by
  simp only [filt, List.filter_append]
  have h' := not_le.mp h
  simp
  linarith

/-- Replace the recent-entry table of a deduplicator. -/
def RequestDeduplicator.withRecent (d : RequestDeduplicator)
    (l : List (String × ℚ)) : RequestDeduplicator :=
  { d with recent := l }

@[simp] lemma RequestDeduplicator.withRecent_recent (d : RequestDeduplicator)
    (l : List (String × ℚ)) : (d.withRecent l).recent = l := rfl

@[simp] lemma RequestDeduplicator.withRecent_window (d : RequestDeduplicator)
    (l : List (String × ℚ)) : (d.withRecent l).window_ms = d.window_ms := rfl

/-- C7: starting from a state in which `key` has never been seen,
`is_duplicate key` is false at `t0` and records `key ↦ t0`; a repeat at `t1`
with `t1 - t0 < windowMs` is reported as a duplicate and keeps the recorded
timestamp `t0` (the window is measured from the first occurrence, not
extended); and a further call at `t2` with `t2 - t0 ≥ windowMs` is reported
as fresh again. -/
theorem request_dedup_window (d : RequestDeduplicator) (key : String)
    (t0 t1 t2 : ℚ)
    (hfresh : ∀ kv ∈ d.recent, kv.1 ≠ key)
    (h1 : t1 - t0 < d.window_ms)
    (h2 : t2 - t0 ≥ d.window_ms) :
    (d.is_duplicate t0 key).1 = false ∧
    lookupKey (d.is_duplicate t0 key).2.recent key = some t0 ∧
    ((d.is_duplicate t0 key).2.is_duplicate t1 key).1 = true ∧
    lookupKey ((d.is_duplicate t0 key).2.is_duplicate t1 key).2.recent key
      = some t0 ∧
    (((d.is_duplicate t0 key).2.is_duplicate t1 key).2.is_duplicate t2 key).1
      = false := by
  have hfresh0 : ∀ kv ∈ filt d.window_ms t0 d.recent, kv.1 ≠ key :=
    filt_fresh _ _ _ _ hfresh
  have hfind0 : (filt d.window_ms t0 d.recent).find? (fun kv => kv.1 == key)
      = none := find?_fresh_none key _ hfresh0
  have hnotany : ((filt d.window_ms t0 d.recent).any (fun kv => kv.1 == key))
      = false := by
    rw [List.any_eq_false]
    intro kv hkv
    simpa using hfresh0 kv hkv
  have hstep0 : d.is_duplicate t0 key =
      (false, d.withRecent (filt d.window_ms t0 d.recent ++ [(key, t0)])) := by
    simp [RequestDeduplicator.is_duplicate, hfind0, dictSet, hnotany,
      RequestDeduplicator.withRecent]
  have hfresh1 : ∀ kv ∈ filt d.window_ms t1 (filt d.window_ms t0 d.recent),
      kv.1 ≠ key := filt_fresh _ _ _ _ hfresh0
  have hclean1 : filt d.window_ms t1 (filt d.window_ms t0 d.recent ++ [(key, t0)])
      = filt d.window_ms t1 (filt d.window_ms t0 d.recent) ++ [(key, t0)] :=
    filt_append_keep _ _ _ _ _ (le_of_lt h1)
  have hfind1 : (filt d.window_ms t1 (filt d.window_ms t0 d.recent)
      ++ [(key, t0)]).find? (fun kv => kv.1 == key) = some (key, t0) :=
    find?_key_append key t0 _ hfresh1
  have hstep1 : (d.withRecent (filt d.window_ms t0 d.recent
      ++ [(key, t0)])).is_duplicate t1 key =
      (true, d.withRecent
        (filt d.window_ms t1 (filt d.window_ms t0 d.recent) ++ [(key, t0)])) := by
    simp only [RequestDeduplicator.is_duplicate,
      RequestDeduplicator.withRecent_recent, RequestDeduplicator.withRecent_window]
    rw [hclean1, hfind1]
    simp [h1, RequestDeduplicator.withRecent]
  have hfresh2 : ∀ kv ∈ filt d.window_ms t2
      (filt d.window_ms t1 (filt d.window_ms t0 d.recent)), kv.1 ≠ key :=
    filt_fresh _ _ _ _ hfresh1
  have hstep2 : ((d.withRecent (filt d.window_ms t1
      (filt d.window_ms t0 d.recent) ++ [(key, t0)])).is_duplicate t2 key).1
      = false := by
    rcases lt_or_eq_of_le h2 with hgt | heq
    · have hdrop : filt d.window_ms t2
          (filt d.window_ms t1 (filt d.window_ms t0 d.recent) ++ [(key, t0)])
          = filt d.window_ms t2
            (filt d.window_ms t1 (filt d.window_ms t0 d.recent)) :=
        filt_append_drop _ _ _ _ _ (by linarith)
      have hfind2 : (filt d.window_ms t2
          (filt d.window_ms t1 (filt d.window_ms t0 d.recent))).find?
          (fun kv => kv.1 == key) = none := find?_fresh_none key _ hfresh2
      simp [RequestDeduplicator.is_duplicate, hdrop, hfind2]
    · have hkeep : filt d.window_ms t2
          (filt d.window_ms t1 (filt d.window_ms t0 d.recent) ++ [(key, t0)])
          = filt d.window_ms t2
            (filt d.window_ms t1 (filt d.window_ms t0 d.recent)) ++ [(key, t0)] :=
        filt_append_keep _ _ _ _ _ (le_of_eq heq.symm)
      have hfind2 : (filt d.window_ms t2
          (filt d.window_ms t1 (filt d.window_ms t0 d.recent))
          ++ [(key, t0)]).find? (fun kv => kv.1 == key) = some (key, t0) :=
        find?_key_append key t0 _ hfresh2
      have hnl : ¬ (t2 - t0 < d.window_ms) := by linarith
      simp [RequestDeduplicator.is_duplicate, hkeep, hfind2, hnl]
  refine ⟨by rw [hstep0], ?_, ?_, ?_, ?_⟩
  · rw [hstep0]
    simp only [lookupKey, RequestDeduplicator.withRecent_recent]
    rw [find?_key_append key t0 _ hfresh0]
    rfl
  · rw [hstep0, hstep1]
  · rw [hstep0, hstep1]
    simp only [lookupKey, RequestDeduplicator.withRecent_recent]
    rw [hfind1]
    rfl
  · rw [hstep0, hstep1]
    exact hstep2

/-- Witness for C7: a 500 ms window, a fresh deduplicator, calls at
`t = 0`, `t = 100` and `t = 500`. -/
theorem request_dedup_window_witness :
    ((⟨500, []⟩ : RequestDeduplicator).is_duplicate 0 "cmd").1 = false ∧
    lookupKey ((⟨500, []⟩ : RequestDeduplicator).is_duplicate 0 "cmd").2.recent
      "cmd" = some 0 ∧
    (((⟨500, []⟩ : RequestDeduplicator).is_duplicate 0 "cmd").2.is_duplicate
      100 "cmd").1 = true ∧
    lookupKey (((⟨500, []⟩ : RequestDeduplicator).is_duplicate 0 "cmd").2.is_duplicate
      100 "cmd").2.recent "cmd" = some 0 ∧
    ((((⟨500, []⟩ : RequestDeduplicator).is_duplicate 0 "cmd").2.is_duplicate
      100 "cmd").2.is_duplicate 500 "cmd").1 = false :=
  request_dedup_window ⟨500, []⟩ "cmd" 0 100 500
    (by intro kv hkv; cases hkv) (by norm_num) (by norm_num)

/-- A message from `conversation.py`: role, content and creation time. -/
structure Message where
  role : String
  content : String
  timestamp : ℚ
  deriving DecidableEq, Repr

/-- `ConversationSession` from `conversation.py`. -/
structure ConversationSession where
  session_id : String
  messages : List Message
  created_at : ℚ
  last_activity : ℚ
  max_history : Nat
  deriving DecidableEq, Repr

/-- The trim step of `ConversationSession.add_message`: append, then
`self.messages = self.messages[-self.max_history:]` whenever the length
exceeds `max_history`. Note the Python slice `[-0:]` is the whole list, so
with `max_history = 0` the trim keeps everything. -/
def qpush (m : Nat) (l : List Message) (x : Message) : List Message :=
  let l' := l ++ [x]
  if l'.length > m then
    (if m = 0 then l' else l'.drop (l'.length - m))
  else l'

/-- `ConversationSession.add_message` from `conversation.py`. -/
def ConversationSession.add_message (s : ConversationSession) (now : ℚ)
    (role content : String) : ConversationSession :=
  { s with messages := qpush s.max_history s.messages ⟨role, content, now⟩,
           last_activity := now }

/-- `ConversationSession.add_exchange` from `conversation.py`: a user message
followed by an assistant message. -/
def ConversationSession.add_exchange (s : ConversationSession) (now : ℚ)
    (user_message assistant_response : String) : ConversationSession :=
  (s.add_message now "user" user_message).add_message now "assistant"
    assistant_response

/-- Adding a list of (role, content) messages one at a time, as a run of
`add_message` mutations (`add_exchange` is the special case of two
consecutive elements). -/
def ConversationSession.addAll (s : ConversationSession) (now : ℚ)
    (ms : List (String × String)) : ConversationSession :=
  ms.foldl (fun acc rc => acc.add_message now rc.1 rc.2) s

lemma qpush_length_le (m : Nat) (hm : 1 ≤ m) (l : List Message) (x : Message) :
    (qpush m l x).length ≤ max m (l.length + 1) := by
  simp only [qpush]
  by_cases h : (l ++ [x]).length > m
  · have hm0 : ¬ m = 0 := by omega
    simp only [h, if_true, hm0, if_false]
    simp only [List.length_drop, List.length_append, List.length_singleton]
    omega
  · simp only [h, if_false]
    simp only [List.length_append, List.length_singleton] at h ⊢
    omega

lemma qpush_length_le_of_le (m : Nat) (hm : 1 ≤ m) (l : List Message)
    (x : Message) (hl : l.length ≤ m) : (qpush m l x).length ≤ m := by
  simp only [qpush]
  by_cases h : (l ++ [x]).length > m
  · have hm0 : ¬ m = 0 := by omega
    simp only [h, if_true, hm0, if_false]
    simp only [List.length_drop, List.length_append, List.length_singleton]
    omega
  · simp only [h, if_false]
    simp only [List.length_append, List.length_singleton] at h ⊢
    omega

lemma foldl_qpush (m : Nat) (hm : 1 ≤ m) :
    ∀ (xs acc : List Message), acc.length ≤ m →
      xs.foldl (qpush m) acc = (acc ++ xs).drop ((acc ++ xs).length - m) := by
  intro xs
  induction xs with
  | nil =>
    intro acc hacc
    simp only [List.foldl_nil, List.append_nil]
    rw [Nat.sub_eq_zero_of_le hacc, List.drop_zero]
  | cons x xs ih =>
    intro acc hacc
    simp only [List.foldl_cons]
    by_cases h : acc.length + 1 ≤ m
    · have hq : qpush m acc x = acc ++ [x] := by
        simp only [qpush, List.length_append, List.length_singleton]
        have hx : ¬ (acc.length + 1 > m) := by omega
        simp [hx]
      rw [hq, ih (acc ++ [x]) (by simpa using h)]
      simp only [List.append_assoc, List.cons_append, List.nil_append]
    · have hLm : acc.length = m := by omega
      have hq : qpush m acc x = (acc ++ [x]).drop 1 := by
        simp only [qpush, List.length_append, List.length_singleton]
        have h1 : acc.length + 1 > m := by omega
        have h2 : ¬ m = 0 := by omega
        simp [h1, h2, hLm]
      rw [hq, ih ((acc ++ [x]).drop 1)
        (by simp only [List.length_drop, List.length_append,
              List.length_singleton]; omega)]
      have h1len : (1 : Nat) ≤ (acc ++ [x]).length := by
        simp only [List.length_append, List.length_singleton]
        omega
      have hsplit : (acc ++ [x]).drop 1 ++ xs = ((acc ++ [x]) ++ xs).drop 1 := by
        rw [List.drop_append_of_le_length h1len]
      rw [hsplit, List.drop_drop]
      have hl : (acc ++ [x]) ++ xs = acc ++ x :: xs := by simp
      rw [hl]
      congr 1
      simp only [List.length_drop, List.length_append, List.length_singleton,
        List.length_cons]
      omega

lemma addAll_messages (m : Nat) (now : ℚ) :
    ∀ (ms : List (String × String)) (s : ConversationSession),
      s.max_history = m →
      (s.addAll now ms).messages
        = (ms.map (fun rc => (⟨rc.1, rc.2, now⟩ : Message))).foldl
            (qpush m) s.messages := by
  intro ms
  induction ms with
  | nil => intro s _; simp [ConversationSession.addAll]
  | cons rc ms ihm =>
    intro s hs
    simp only [ConversationSession.addAll, List.foldl_cons, List.map_cons]
    have hnext := ihm (s.add_message now rc.1 rc.2)
      (by simp [ConversationSession.add_message, hs])
    simp only [ConversationSession.addAll] at hnext
    rw [hnext]
    simp [ConversationSession.add_message, hs]

/-- C9 (amended, `maxHistory ≥ 1`): after any single `add_message` mutation
the history length is at most `max_history`; and running more than
`max_history` messages through a fresh session leaves exactly the most recent
`max_history` of them, in oldest-first order (a flat queue: oldest dropped
first, user/assistant pairs not preserved). `add_exchange` is two consecutive
`add_message` calls, so both statements cover it. -/
theorem conversation_history_bounded (m : Nat) (hm : 1 ≤ m) :
    (∀ (s : ConversationSession), s.max_history = m →
      ∀ (now : ℚ) (role content : String), s.messages.length ≤ m →
      ((s.add_message now role content).messages.length ≤ m)) ∧
    (∀ (sid : String) (ca la now : ℚ) (ms : List (String × String)),
      ms.length > m →
      ((⟨sid, [], ca, la, m⟩ : ConversationSession).addAll now ms).messages
        = ((ms.map (fun rc => (⟨rc.1, rc.2, now⟩ : Message))).drop
            (ms.length - m))) := by
  constructor
  · intro s hs now role content hlen
    simp only [ConversationSession.add_message]
    rw [hs]
    exact qpush_length_le_of_le m hm _ _ (by omega)
  · intro sid ca la now ms _
    rw [addAll_messages m now ms _ rfl]
    rw [foldl_qpush m hm _ [] (by simp)]
    simp [List.length_map]

/-- Witness for C9: with `max_history = 2`, adding the three messages of one
and a half exchanges to a fresh session keeps only the last two, oldest
first. -/
theorem conversation_history_bounded_witness :
    ((⟨"s", [], 0, 0, 2⟩ : ConversationSession).addAll 0
        [("user", "a"), ("assistant", "b"), ("user", "c")]).messages
      = [⟨"assistant", "b", 0⟩, ⟨"user", "c", 0⟩] ∧
    (((⟨"s", [], 0, 0, 2⟩ : ConversationSession).add_message 0 "user"
        "a").messages.length ≤ 2) := by
  have h := conversation_history_bounded 2 (by norm_num)
  constructor
  · have h2 := h.2 "s" 0 0 0 [("user", "a"), ("assistant", "b"), ("user", "c")]
      (by norm_num)
    rw [h2]
    rfl
  · exact h.1 _ rfl 0 "user" "a" (by simp)

/-- Counterexample for C9 as stated: a session with `max_history = 0` (the
Python slice `messages[-0:]` keeps the whole list) holds one message after
one mutation, so `len(messages) ≤ maxHistory` fails. -/
theorem conversation_zero_history_counterexample :
    ¬ (((⟨"s", [], 0, 0, 0⟩ : ConversationSession).add_message 0 "user"
        "hi").messages.length ≤
      (⟨"s", [], 0, 0, 0⟩ : ConversationSession).max_history) := by
  simp [ConversationSession.add_message, qpush]

/-- The whitespace characters of Python's `str.strip` and the regex `\s`
(ASCII range). -/
def pyWhitespace : List Char := [' ', '\t', '\n', '\r', '\x0b', '\x0c']

/-- Whether a character is (ASCII) Python whitespace. -/
def isPySpace (c : Char) : Bool := pyWhitespace.contains c

/-- Python `str.strip()`: drop leading and trailing whitespace. -/
def stripEnds (l : List Char) : List Char :=
  ((l.dropWhile isPySpace).reverse.dropWhile isPySpace).reverse

/-- One step of collapsing whitespace runs: the flag records whether the
previous character was part of a run already replaced by one space. -/
def collapseStep (acc : List Char × Bool) (c : Char) : List Char × Bool :=
  if isPySpace c then (if acc.2 then acc else (acc.1 ++ [' '], true))
  else (acc.1 ++ [c], false)

/-- Python `re.sub(r'\s+', ' ', s)`: every maximal whitespace run becomes a
single space. -/
def collapseRuns (l : List Char) : List Char :=
  (l.foldl collapseStep ([], false)).1

/-- `normalize_name` from `http.py`:
`re.sub(r'\s+', ' ', name.lower().strip())`. Lowercasing is modelled for the
ASCII range (`Char.toLower`). -/
def normalize_name (s : String) : String :=
  ⟨collapseRuns (stripEnds (s.data.map Char.toLower))⟩

/-- Length of the common prefix of two character lists. -/
def cpl : List Char → List Char → Nat
  | a :: as, b :: bs => if a = b then cpl as bs + 1 else 0
  | _, _ => 0

/-- `difflib.SequenceMatcher.find_longest_match` on short sequences (no
autojunk, which only triggers for sequences of 200+ elements): the longest
common contiguous block, ties broken by smallest start in `a`, then smallest
start in `b` — exactly the block the source's scan records first, since it
only replaces the best on a strictly longer match. -/
def find_longest_match (a b : List Char) : Nat × Nat × Nat :=
  (List.range (a.length + 1)).foldl (fun best i =>
    (List.range (b.length + 1)).foldl (fun best j =>
      let k := cpl (a.drop i) (b.drop j)
      if k > best.2.2 then (i, j, k) else best) best) (0, 0, 0)

/-- Total size of `difflib.SequenceMatcher.get_matching_blocks`: recursively
take the longest match and recurse on the parts to its left and right. The
fuel argument only bounds the recursion depth; `a.length + b.length + 1` is
always sufficient because each recursive call strictly shrinks `a`. -/
def matchingTotal : Nat → List Char → List Char → Nat
  | 0, _, _ => 0
  | fuel + 1, a, b =>
    let m := find_longest_match a b
    if m.2.2 = 0 then 0
    else matchingTotal fuel (a.take m.1) (b.take m.2.1) + m.2.2 +
         matchingTotal fuel (a.drop (m.1 + m.2.2)) (b.drop (m.2.1 + m.2.2))

/-- `difflib.SequenceMatcher(None, a, b).ratio()`: `2*M / T` where `M` is the
total matched size and `T` the combined length (1.0 when both are empty).
Floats are modelled as exact rationals. -/
def similarity (a b : List Char) : ℚ :=
  if a.length + b.length = 0 then 1
  else (2 * matchingTotal (a.length + b.length + 1) a b : ℚ) / (a.length + b.length)

/-- Does `b` start with `a`? -/
def leadsWith : List Char → List Char → Bool
  | [], _ => true
  | _ :: _, [] => false
  | a :: as, b :: bs => (a = b) && leadsWith as bs

/-- Python's substring test `sub in big` on character lists. -/
def containsSeq (sub : List Char) : List Char → Bool
  | [] => leadsWith sub []
  | b :: rest => leadsWith sub (b :: rest) || containsSeq sub rest

/-- One step of the fuzzy-match fold in `find_by_name` (`http.py`): keep the
candidate whose similarity to the query strictly exceeds the best so far
(initially the 0.6 threshold). -/
def fuzzyStep {α : Type} (getName : α → String) (nq : List Char)
    (best : Option α × ℚ) (it : α) : Option α × ℚ :=
  let r := similarity nq (normalize_name (getName it)).data
  if r > best.2 then (some it, r) else best

/-- `find_by_name` from `http.py`, generic over the record type: stage 1
exact normalized-name match, stage 2 substring match in either direction,
stage 3 id match, stage 4 best fuzzy match above the 0.6 threshold, else
none. Each stage takes the first hit in input order and short-circuits. -/
def find_by_name_gen {α : Type} (getName getId : α → String)
    (items : List α) (name : String) : Option α :=
  let nq := normalize_name name
  match items.find? (fun it => normalize_name (getName it) == nq) with
  | some it => some it
  | none =>
    match items.find? (fun it =>
        containsSeq nq.data (normalize_name (getName it)).data ||
        containsSeq (normalize_name (getName it)).data nq.data) with
    | some it => some it
    | none =>
      match items.find? (fun it => normalize_name (getId it) == nq) with
      | some it => some it
      | none =>
        (items.foldl (fuzzyStep getName nq.data)
          ((none : Option α), (3/5 : ℚ))).1

/-- A record with `name` and `id` fields, as searched by `find_by_name`. -/
structure Item where
  name : String
  id : String
  deriving DecidableEq, Repr

/-- `find_by_name` at its default `name_field="name"` on plain records. -/
def find_by_name (items : List Item) (name : String) : Option Item :=
  find_by_name_gen Item.name Item.id items name

/-- Insert into a descending-sorted list, after any entry with an equal or
larger score (preserving first-seen order among equal scores, like Python's
stable `sort(reverse=True)`). -/
def insertDesc (x : String × ℚ) : List (String × ℚ) → List (String × ℚ)
  | [] => [x]
  | y :: ys => if y.2 < x.2 then x :: y :: ys else y :: insertDesc x ys

/-- Stable descending sort by score. -/
def sortDesc (l : List (String × ℚ)) : List (String × ℚ) :=
  l.foldl (fun acc x => insertDesc x acc) []

/-- `get_close_matches_for_name` from `http.py`: similarity of the normalized
query against each normalized item name, filter by `cutoff`, sort by
similarity descending (stable), return the first `n` original names. -/
def get_close_matches_for_name (items : List Item) (name : String)
    (n : Nat) (cutoff : ℚ) : List String :=
  let nq := (normalize_name name).data
  let cands := items.filterMap (fun it =>
    let r := similarity nq (normalize_name it.name).data
    if r ≥ cutoff then some (it.name, r) else none)
  ((sortDesc cands).take n).map (fun m => m.1)

lemma fuzzy_fold_below {α : Type} (getName : α → String) (nq : List Char) :
    ∀ (items : List α),
      (∀ it ∈ items, similarity nq (normalize_name (getName it)).data ≤ 3/5) →
      items.foldl (fuzzyStep getName nq) ((none : Option α), (3/5 : ℚ))
        = (none, 3/5) := by
  intro items
  induction items with
  | nil => intro _; simp
  | cons it its ih =>
    intro hall
    have hle : similarity nq (normalize_name (getName it)).data ≤ 3/5 :=
      hall it (List.mem_cons_self it its)
    have hstep : fuzzyStep getName nq ((none : Option α), (3/5 : ℚ)) it
        = (none, 3/5) := by
      simp only [fuzzyStep]
      rw [if_neg (not_lt.2 hle)]
    simp only [List.foldl_cons, hstep]
    exact ih (fun x hx => hall x (List.mem_cons_of_mem it hx))

/-- C6: (1) `find_by_name` depends on the query only through its
normalization, so queries differing in case or whitespace runs resolve
identically; (2) whenever an item with an exactly matching normalized name
exists, the result is such an item (stage 1 short-circuits, whatever fuzzy
scores other items have); (3) when no exact, substring, or id match exists
and no item's similarity exceeds 0.6, the result is `none` — independently of
what `get_close_matches_for_name` would suggest at its lower 0.4 cutoff. -/
theorem find_by_name_staged :
    (∀ (items : List Item) (q1 q2 : String),
      normalize_name q1 = normalize_name q2 →
      find_by_name items q1 = find_by_name items q2) ∧
    (∀ (items : List Item) (q : String) (it : Item), it ∈ items →
      normalize_name it.name = normalize_name q →
      ∃ it', find_by_name items q = some it' ∧
        normalize_name it'.name = normalize_name q) ∧
    (∀ (items : List Item) (q : String),
      (∀ it ∈ items, normalize_name it.name ≠ normalize_name q) →
      (∀ it ∈ items,
        containsSeq (normalize_name q).data (normalize_name it.name).data = false ∧
        containsSeq (normalize_name it.name).data (normalize_name q).data = false) →
      (∀ it ∈ items, normalize_name it.id ≠ normalize_name q) →
      (∀ it ∈ items,
        similarity (normalize_name q).data (normalize_name it.name).data ≤ 3/5) →
      find_by_name items q = none) := by
  refine ⟨?_, ?_, ?_⟩
  · intro items q1 q2 h
    simp only [find_by_name, find_by_name_gen, h]
  · intro items q it hit hexact
    have hsome : (items.find? (fun x => normalize_name x.name == normalize_name q)).isSome := by
      rw [List.find?_isSome]
      exact ⟨it, hit, by simpa using hexact⟩
    obtain ⟨it', hfind⟩ := Option.isSome_iff_exists.mp hsome
    refine ⟨it', ?_, ?_⟩
    · simp only [find_by_name, find_by_name_gen, hfind]
    · have := List.find?_some hfind
      simpa using this
  · intro items q hexact hsub hid hfz
    have h1 : items.find? (fun x => normalize_name x.name == normalize_name q)
        = none := by
      rw [List.find?_eq_none]
      intro x hx
      simpa using hexact x hx
    have h2 : items.find? (fun x =>
        containsSeq (normalize_name q).data (normalize_name x.name).data ||
        containsSeq (normalize_name x.name).data (normalize_name q).data)
        = none := by
      rw [List.find?_eq_none]
      intro x hx
      have := hsub x hx
      simp [this.1, this.2]
    have h3 : items.find? (fun x => normalize_name x.id == normalize_name q)
        = none := by
      rw [List.find?_eq_none]
      intro x hx
      simpa using hid x hx
    simp only [find_by_name, find_by_name_gen, h1, h2, h3]
    rw [fuzzy_fold_below Item.name (normalize_name q).data items hfz]

/-- Two demo records for the resolver witness. -/
def demoItems : List Item := [⟨"Bedroom Lamp", "11"⟩, ⟨"Kitchen Light", "12"⟩]

/-- A record that only fuzzy-matches the query "abcd" (similarity 1/2). -/
def fuzzyItems : List Item := [⟨"abxy", "1"⟩]

lemma similarity_abcd_abxy :
    similarity (normalize_name "abcd").data (normalize_name "abxy").data
      = 1/2 := by
  have hM : matchingTotal 9 (normalize_name "abcd").data
      (normalize_name "abxy").data = 2 := by decide
  have hl1 : (normalize_name "abcd").data.length = 4 := by decide
  have hl2 : (normalize_name "abxy").data.length = 4 := by decide
  simp [similarity, hM, hl1, hl2]
  norm_num

/-- Witness for C6: the whitespace/case-mangled query resolves like the clean
one; an exact hit exists and wins; the query "abcd" against the lone item
"abxy" (similarity 0.5) resolves to none even though
`get_close_matches_for_name` at cutoff 0.4 would return a non-empty
suggestion list. -/
theorem find_by_name_staged_witness :
    find_by_name demoItems "  Kitchen   Light  "
      = find_by_name demoItems "Kitchen Light" ∧
    (∃ it', find_by_name demoItems "kitchen light" = some it' ∧
      normalize_name it'.name = normalize_name "kitchen light") ∧
    find_by_name fuzzyItems "abcd" = none ∧
    get_close_matches_for_name fuzzyItems "abcd" 3 (2/5) = ["abxy"] := by
  obtain ⟨hpart1, hpart2, hpart3⟩ := find_by_name_staged
  refine ⟨hpart1 demoItems _ _ (by decide), ?_, ?_, ?_⟩
  · exact hpart2 demoItems "kitchen light" ⟨"Kitchen Light", "12"⟩
      (by decide) (by decide)
  · refine hpart3 fuzzyItems "abcd" ?_ ?_ ?_ ?_
    · intro it hit
      have : it = ⟨"abxy", "1"⟩ := by simpa [fuzzyItems] using hit
      subst this
      decide
    · intro it hit
      have : it = ⟨"abxy", "1"⟩ := by simpa [fuzzyItems] using hit
      subst this
      exact ⟨by decide, by decide⟩
    · intro it hit
      have : it = ⟨"abxy", "1"⟩ := by simpa [fuzzyItems] using hit
      subst this
      decide
    · intro it hit
      have : it = ⟨"abxy", "1"⟩ := by simpa [fuzzyItems] using hit
      subst this
      rw [similarity_abcd_abxy]
      norm_num
  · have hge : ((2 : ℚ)/5 ≤ 1/2) := by norm_num
    simp only [get_close_matches_for_name, fuzzyItems, List.filterMap_cons,
      List.filterMap_nil, similarity_abcd_abxy]
    rw [if_pos hge]
    simp [sortDesc, insertDesc]

/-- A device record as the control tools read it: the dict keys `id`,
`externalId`, `name`, `type`, `deviceType`. Optional keys are `Option`;
`name` and `id` are modelled as always present (missing maps to `""`). -/
structure Device where
  id : String
  externalId : Option String
  name : String
  type : Option String
  deviceType : Option String
  deriving DecidableEq, Repr

/-- Python `a or b` on optional strings: `a` wins unless it is `None` or
empty (falsy). -/
def pyOrStr (a b : Option String) : Option String :=
  match a with
  | some s => if s = "" then b else some s
  | none => b

/-- `SHADE_DEVICE_TYPES` from `tools/rooms.py` (and `tools/groups.py`,
`tools/devices.py`). -/
def SHADE_DEVICE_TYPES : List String := ["Curtain", "Curtain3", "Blind Tilt", "Roller Shade"]

/-- Python `str.lower()` on the ASCII range. -/
def strLower (s : String) : String := ⟨s.data.map Char.toLower⟩

/-- The shade-name keywords of `_is_shade_device`. -/
def SHADE_NAME_KEYWORDS : List String := ["shade", "curtain", "blind", "persiana", "cortina"]

/-- `_is_shade_device` from `tools/rooms.py` / `tools/groups.py`: shade by
declared type (`deviceType` falling back to `type`), else by a keyword in the
lowercased name. -/
def is_shade_device (d : Device) : Bool :=
  (match pyOrStr d.deviceType d.type with
   | some s => SHADE_DEVICE_TYPES.contains s
   | none => false) ||
  SHADE_NAME_KEYWORDS.any (fun kw => containsSeq kw.data (strLower d.name).data)

/-- `_is_blind_tilt` from `tools/rooms.py` / `tools/devices.py`. -/
def is_blind_tilt (d : Device) : Bool := d.deviceType == some "Blind Tilt"

/-- A `PUT /devices/{id}` JSON body: the keys `on`, `brightness`,
`colorTemp` that the control tools may set. -/
structure StateUpdate where
  on' : Option Bool
  brightness : Option Int
  colorTemp : Option Int
  deriving DecidableEq, Repr

/-- The empty state update (`{}` in the source). -/
def emptyUpdate : StateUpdate := ⟨none, none, none⟩

/-- The state-delta construction shared verbatim by `control_room`
(`tools/rooms.py`) and `control_group` (`tools/groups.py`): `on` if given;
`brightness` if given, forcing `on = true` when positive; `colorTemp` if
given. -/
def buildLightStateUpdate (onArg : Option Bool) (brightness color_temp : Option Int) :
    StateUpdate :=
  let s1 : StateUpdate := { on' := onArg, brightness := none, colorTemp := none }
  let s2 := match brightness with
    | some b => { s1 with brightness := some b,
                          on' := if b > 0 then some true else s1.on' }
    | none => s1
  match color_temp with
  | some ct => { s2 with colorTemp := some ct }
  | none => s2

/-- The device id the control loops target:
`device.get("externalId") or device.get("id")`. -/
def deviceTargetId (d : Device) : String :=
  match d.externalId with
  | some e => if e = "" then d.id else e
  | none => d.id

/-- One entry of the per-member `results` list. -/
structure MemberResult where
  device : String
  success : Bool
  deriving DecidableEq, Repr

/-- A room record: `{id, name, devices}`. -/
structure Room where
  id : String
  name : String
  devices : List Device
  deriving DecidableEq, Repr

/-- `find_by_name` applied to the room list. -/
def find_by_name_rooms (rooms : List Room) (name : String) : Option Room :=
  find_by_name_gen Room.name Room.id rooms name

/-- Observable outcome of `control_room`: the dict fields the claims read,
plus `puts`, the trace of `PUT /devices/{id}` calls issued (id and body). -/
structure RoomControlResult where
  success : Bool
  error : Option String
  room : Option String
  message : Option String
  results : Option (List MemberResult)
  devices_controlled : Option Nat
  total_devices : Option Nat
  puts : List (String × StateUpdate)
  deriving DecidableEq, Repr

/-- `control_room` from `tools/rooms.py`. `putOk id` gives the outcome of the
`PUT` to device `id` (true = 2xx, false = raised). Resolution failure,
shade-free device filtering, the empty-room short-circuit, the empty-delta
error and the partial-failure accounting follow the source. -/
def control_room (putOk : String → Bool) (rooms : List Room)
    (room_name : String) (onArg : Option Bool)
    (brightness color_temp : Option Int) : RoomControlResult :=
  match find_by_name_rooms rooms room_name with
  | none =>
    { success := false, error := some ("Room '" ++ room_name ++ "' not found"),
      room := none, message := none, results := none,
      devices_controlled := none, total_devices := none, puts := [] }
  | some room =>
    let devices := room.devices.filter (fun d => !(is_shade_device d))
    if devices.isEmpty then
      { success := true, error := none, room := some room.name,
        message := some "Room has no devices", results := none,
        devices_controlled := some 0, total_devices := none, puts := [] }
    else
      let su := buildLightStateUpdate onArg brightness color_temp
      if su = emptyUpdate then
        { success := false, error := some "No state changes specified",
          room := none, message := none, results := none,
          devices_controlled := none, total_devices := none, puts := [] }
      else
        let results := devices.map (fun d =>
          ({ device := d.name, success := putOk (deviceTargetId d) } : MemberResult))
        let success_count := (results.filter (fun r => r.success)).length
        { success := decide (0 < success_count), error := none,
          room := some room.name, message := none,
          results := some results,
          devices_controlled := some success_count,
          total_devices := some devices.length,
          puts := devices.map (fun d => (deviceTargetId d, su)) }

/-- `_get_shade_state_update` from `tools/rooms.py`: open → on, Blind-Tilt
brightness 50 (horizontal slats) or 100 otherwise; close → off, brightness 0
(always downward); position → Blind-Tilt `int(position / 2)` or the raw
position, with `on = position > 0`. -/
def get_shade_state_update (d : Device) (action : String)
    (position : Option Int) : StateUpdate :=
  let is_bt := is_blind_tilt d
  if action = "open" then
    { on' := some true, brightness := some (if is_bt then 50 else 100),
      colorTemp := none }
  else if action = "close" then
    { on' := some false, brightness := some 0, colorTemp := none }
  else if action = "position" then
    match position with
    | some p =>
      { on' := some (p > 0),
        brightness := some (if is_bt then p / 2 else p), colorTemp := none }
    | none => emptyUpdate
  else emptyUpdate

/-- Observable outcome of `control_room_shades`. -/
structure ShadeControlResult where
  success : Bool
  error : Option String
  room : Option String
  all_devices : Option (List String)
  results : Option (List MemberResult)
  shades_controlled : Option Nat
  total_shades : Option Nat
  puts : List (String × StateUpdate)
  deriving DecidableEq, Repr

/-- `control_room_shades` from `tools/rooms.py`: resolve the room, keep only
shade-classified devices, fail with the device listing when none exist,
require a position for the position action, and send one per-shade state
update. -/
def control_room_shades (putOk : String → Bool) (rooms : List Room)
    (room_name action : String) (position : Option Int) : ShadeControlResult :=
  match find_by_name_rooms rooms room_name with
  | none =>
    { success := false, error := some ("Room '" ++ room_name ++ "' not found"),
      room := none, all_devices := none, results := none,
      shades_controlled := none, total_shades := none, puts := [] }
  | some room =>
    let devices := room.devices
    let shade_devices := devices.filter is_shade_device
    if shade_devices.isEmpty then
      { success := false, room := some room.name,
        error := some ("No shades/curtains/blinds found in " ++ room.name),
        all_devices := some (devices.map Device.name),
        results := none, shades_controlled := none, total_shades := none,
        puts := [] }
    else if action = "position" ∧ position = none then
      { success := false,
        error := some "Position is required for 'position' action",
        room := none, all_devices := none, results := none,
        shades_controlled := none, total_shades := none, puts := [] }
    else
      let results := shade_devices.map (fun d =>
        ({ device := d.name, success := putOk (deviceTargetId d) } : MemberResult))
      let success_count := (results.filter (fun r => r.success)).length
      { success := decide (0 < success_count), error := none,
        room := some room.name, all_devices := none,
        results := some results,
        shades_controlled := some success_count,
        total_shades := some shade_devices.length,
        puts := shade_devices.map (fun d =>
          (deviceTargetId d, get_shade_state_update d action position)) }

/-- A group membership entry: either a wrapper dict with a `device` key or
the device dict itself (`membership.get("device", membership)`). -/
inductive GroupMember where
  | wrapped (d : Device)
  | bare (d : Device)
  deriving DecidableEq, Repr

/-- The device a membership entry denotes. -/
def GroupMember.dev : GroupMember → Device
  | .wrapped d => d
  | .bare d => d

/-- A group record: `{id, name, devices}`. -/
structure GroupRec where
  id : String
  name : String
  devices : List GroupMember
  deriving DecidableEq, Repr

/-- Observable outcome of `control_group`. -/
structure GroupControlResult where
  success : Bool
  error : Option String
  group : Option String
  message : Option String
  results : Option (List MemberResult)
  devices_controlled : Option Nat
  total_devices : Option Nat
  puts : List (String × StateUpdate)
  deriving DecidableEq, Repr

/-- `control_group` from `tools/groups.py`: resolve the group, build the
state delta (same construction as `control_room`), reject an empty delta,
drop shade-classified members, short-circuit when only shades remain, and
send one update per light device. -/
def control_group (putOk : String → Bool) (groups : List GroupRec)
    (group_name : String) (onArg : Option Bool)
    (brightness color_temp : Option Int) : GroupControlResult :=
  match find_by_name_gen GroupRec.name GroupRec.id groups group_name with
  | none =>
    { success := false,
      error := some ("Group '" ++ group_name ++ "' not found"),
      group := none, message := none, results := none,
      devices_controlled := none, total_devices := none, puts := [] }
  | some group =>
    let su := buildLightStateUpdate onArg brightness color_temp
    if su = emptyUpdate then
      { success := false, error := some "No state changes specified",
        group := none, message := none, results := none,
        devices_controlled := none, total_devices := none, puts := [] }
    else
      let light_devices := group.devices.filter
        (fun m => !(is_shade_device m.dev))
      if light_devices.isEmpty then
        { success := true, error := none, group := some group.name,
          message := some "Group has no light devices (only shades/blinds)",
          results := none, devices_controlled := some 0,
          total_devices := none, puts := [] }
      else
        let results := light_devices.map (fun m =>
          ({ device := m.dev.name,
             success := putOk (deviceTargetId m.dev) } : MemberResult))
        let success_count := (results.filter (fun r => r.success)).length
        { success := decide (0 < success_count), error := none,
          group := some group.name, message := none,
          results := some results,
          devices_controlled := some success_count,
          total_devices := some light_devices.length,
          puts := light_devices.map (fun m =>
            (deviceTargetId m.dev, su)) }

/-- `_get_blind_tilt_position_for_openness` from `tools/devices.py`:
clamp to `[0, 100]`, otherwise the identity (position 100 = slats tilted
down = fully open in this snapshot's convention). -/
def get_blind_tilt_position_for_openness (openness : Int) : Int :=
  if openness ≥ 100 then 100
  else if openness ≤ 0 then 0
  else openness

/-- The state-update construction of `control_shade` (`tools/devices.py`):
open → brightness 100 whether or not the device is a Blind Tilt; close →
brightness 0; stop → returns early without sending any state (empty here);
position → `_get_blind_tilt_position_for_openness` for Blind Tilts, the raw
position otherwise. -/
def control_shade_state_update (d : Device) (action : String)
    (position : Option Int) : StateUpdate :=
  let is_bt := is_blind_tilt d
  if action = "open" then
    { on' := some true, brightness := some (if is_bt then 100 else 100),
      colorTemp := none }
  else if action = "close" then
    { on' := some false, brightness := some 0, colorTemp := none }
  else if action = "stop" then emptyUpdate
  else if action = "position" then
    match position with
    | some p =>
      { on' := some (p > 0),
        brightness := some (if is_bt then
          get_blind_tilt_position_for_openness p else p), colorTemp := none }
    | none => emptyUpdate
  else emptyUpdate

/-- C2: every `PUT` issued by `control_room` targets a non-shade-classified
member of the resolved room; every `PUT` issued by `control_room_shades`
targets a shade-classified member and carries that device's shade state
update; and a resolved room with no shade-classified device makes
`control_room_shades` fail with the descriptive error listing the room's
devices, issuing no call. -/
theorem control_room_shade_partition :
    (∀ (putOk : String → Bool) (rooms : List Room) (rn : String)
        (onArg : Option Bool) (b ct : Option Int) (did : String)
        (su : StateUpdate),
      (did, su) ∈ (control_room putOk rooms rn onArg b ct).puts →
      ∃ room d, find_by_name_rooms rooms rn = some room ∧ d ∈ room.devices ∧
        is_shade_device d = false ∧ deviceTargetId d = did) ∧
    (∀ (putOk : String → Bool) (rooms : List Room) (rn action : String)
        (pos : Option Int) (did : String) (su : StateUpdate),
      (did, su) ∈ (control_room_shades putOk rooms rn action pos).puts →
      ∃ room d, find_by_name_rooms rooms rn = some room ∧ d ∈ room.devices ∧
        is_shade_device d = true ∧ deviceTargetId d = did ∧
        su = get_shade_state_update d action pos) ∧
    (∀ (putOk : String → Bool) (rooms : List Room) (rn action : String)
        (pos : Option Int) (room : Room),
      find_by_name_rooms rooms rn = some room →
      room.devices.filter is_shade_device = [] →
      (control_room_shades putOk rooms rn action pos).success = false ∧
      (control_room_shades putOk rooms rn action pos).error
        = some ("No shades/curtains/blinds found in " ++ room.name) ∧
      (control_room_shades putOk rooms rn action pos).all_devices
        = some (room.devices.map Device.name) ∧
      (control_room_shades putOk rooms rn action pos).puts = []) := by
  refine ⟨?_, ?_, ?_⟩
  · intro putOk rooms rn onArg b ct did su hmem
    cases hfind : find_by_name_rooms rooms rn with
    | none => simp [control_room, hfind] at hmem
    | some room =>
      refine ⟨room, ?_⟩
      by_cases hdev : (room.devices.filter (fun d => !(is_shade_device d))).isEmpty
      · simp [control_room, hfind, hdev] at hmem
      · by_cases hsu : buildLightStateUpdate onArg b ct = emptyUpdate
        · simp [control_room, hfind, hdev, hsu] at hmem
        · simp only [control_room, hfind, Bool.not_eq_true] at hmem
          rw [if_neg (by simpa using hdev), if_neg hsu] at hmem
          simp only [List.mem_map] at hmem
          obtain ⟨d, hd, heq⟩ := hmem
          obtain ⟨hd1, hd2⟩ := List.mem_filter.mp hd
          refine ⟨d, rfl, hd1, ?_, ?_⟩
          · simpa using hd2
          · exact congrArg Prod.fst heq
  · intro putOk rooms rn action pos did su hmem
    cases hfind : find_by_name_rooms rooms rn with
    | none => simp [control_room_shades, hfind] at hmem
    | some room =>
      refine ⟨room, ?_⟩
      by_cases hdev : (room.devices.filter is_shade_device).isEmpty
      · simp [control_room_shades, hfind, hdev] at hmem
      · by_cases hpos : action = "position" ∧ pos = none
        · simp [control_room_shades, hfind, hdev, hpos] at hmem
        · simp only [control_room_shades, hfind] at hmem
          rw [if_neg (by simpa using hdev), if_neg hpos] at hmem
          simp only [List.mem_map] at hmem
          obtain ⟨d, hd, heq⟩ := hmem
          obtain ⟨hd1, hd2⟩ := List.mem_filter.mp hd
          refine ⟨d, rfl, hd1, hd2, ?_, ?_⟩
          · exact congrArg Prod.fst heq
          · exact (congrArg Prod.snd heq).symm
  · intro putOk rooms rn action pos room hfind hfilter
    have : (control_room_shades putOk rooms rn action pos) =
        { success := false, room := some room.name,
          error := some ("No shades/curtains/blinds found in " ++ room.name),
          all_devices := some (room.devices.map Device.name),
          results := none, shades_controlled := none, total_shades := none,
          puts := [] } := by
      simp [control_room_shades, hfind, hfilter]
    rw [this]
    exact ⟨rfl, rfl, rfl, rfl⟩

/-- An ordinary light. -/
def lightA : Device := ⟨"la", none, "Lamp A", none, some "Light"⟩

/-- Another ordinary light. -/
def lightB : Device := ⟨"lb", none, "Lamp B", none, some "Light"⟩

/-- A tilting blind. -/
def blindDev : Device := ⟨"bd", none, "Sala Tilt", none, some "Blind Tilt"⟩

/-- A room with one tilting blind and two lights. -/
def livingRoom : Room := ⟨"r1", "Living Room", [blindDev, lightA, lightB]⟩

/-- A room with no shade-classified device. -/
def officeRoom : Room := ⟨"r2", "Office", [lightA]⟩

/-- Witness for C2: closing the living-room shades touches only the blind;
turning the living-room lights off computes exactly the two light `PUT`s; the
shade call against the shade-free office fails with the device listing. -/
theorem control_room_shade_partition_witness :
    (∃ room d, find_by_name_rooms [livingRoom] "Living Room" = some room ∧
      d ∈ room.devices ∧ is_shade_device d = true ∧ deviceTargetId d = "bd" ∧
      (⟨some false, some 0, none⟩ : StateUpdate)
        = get_shade_state_update d "close" none) ∧
    (control_room_shades (fun _ => true) [livingRoom] "Living Room" "close"
        none).puts = [("bd", ⟨some false, some 0, none⟩)] ∧
    (control_room (fun _ => true) [livingRoom] "Living Room" (some false)
        none none).puts
      = [("la", ⟨some false, none, none⟩), ("lb", ⟨some false, none, none⟩)] ∧
    ((control_room_shades (fun _ => true) [officeRoom] "Office" "close"
        none).success = false ∧
      (control_room_shades (fun _ => true) [officeRoom] "Office" "close"
        none).all_devices = some ["Lamp A"]) := by
  obtain ⟨hp1, hp2, hp3⟩ := control_room_shade_partition
  refine ⟨?_, by decide, by decide, ?_⟩
  · exact hp2 (fun _ => true) [livingRoom] "Living Room" "close" none "bd"
      ⟨some false, some 0, none⟩ (by decide)
  · have h := hp3 (fun _ => true) [officeRoom] "Office" "close" none
      officeRoom (by decide) (by decide)
    exact ⟨h.1, by rw [h.2.2.1]; rfl⟩

lemma buildLightStateUpdate_ne_empty (onArg : Option Bool) (b ct : Option Int)
    (h : onArg ≠ none ∨ b ≠ none ∨ ct ≠ none) :
    buildLightStateUpdate onArg b ct ≠ emptyUpdate := by
  cases onArg <;> cases b <;> cases ct <;>
    simp_all [buildLightStateUpdate, emptyUpdate]

/-- C5 (amended): when the room or group resolves, at least one recognized
state field is given, and at least one controllable (non-shade) member
exists, the per-member results list is returned, has one entry per
controllable member, and the overall success flag is exactly
`successCount > 0`. (Without a controllable member the source short-circuits
to `success=True` with no results list — see the counterexample.) -/
theorem control_success_counting :
    (∀ (putOk : String → Bool) (rooms : List Room) (rn : String)
        (onArg : Option Bool) (b ct : Option Int) (room : Room),
      find_by_name_rooms rooms rn = some room →
      (onArg ≠ none ∨ b ≠ none ∨ ct ≠ none) →
      (room.devices.filter (fun d => !(is_shade_device d))).isEmpty = false →
      ∃ rs, (control_room putOk rooms rn onArg b ct).results = some rs ∧
        (control_room putOk rooms rn onArg b ct).success
          = decide (0 < (rs.filter (fun r => r.success)).length) ∧
        rs.length
          = (room.devices.filter (fun d => !(is_shade_device d))).length) ∧
    (∀ (putOk : String → Bool) (groups : List GroupRec) (gn : String)
        (onArg : Option Bool) (b ct : Option Int) (group : GroupRec),
      find_by_name_gen GroupRec.name GroupRec.id groups gn = some group →
      (onArg ≠ none ∨ b ≠ none ∨ ct ≠ none) →
      (group.devices.filter (fun m => !(is_shade_device m.dev))).isEmpty
        = false →
      ∃ rs, (control_group putOk groups gn onArg b ct).results = some rs ∧
        (control_group putOk groups gn onArg b ct).success
          = decide (0 < (rs.filter (fun r => r.success)).length) ∧
        rs.length
          = (group.devices.filter (fun m => !(is_shade_device m.dev))).length) := by
  constructor
  · intro putOk rooms rn onArg b ct room hfind hfield hdev
    have hne := buildLightStateUpdate_ne_empty onArg b ct hfield
    refine ⟨(room.devices.filter (fun d => !(is_shade_device d))).map
      (fun d => (⟨d.name, putOk (deviceTargetId d)⟩ : MemberResult)),
      ?_, ?_, ?_⟩
    · simp only [control_room, hfind]
      rw [if_neg (by simp [hdev]), if_neg hne]
    · simp only [control_room, hfind]
      rw [if_neg (by simp [hdev]), if_neg hne]
    · simp [List.length_map]
  · intro putOk groups gn onArg b ct group hfind hfield hdev
    have hne := buildLightStateUpdate_ne_empty onArg b ct hfield
    refine ⟨(group.devices.filter (fun m => !(is_shade_device m.dev))).map
      (fun m => (⟨m.dev.name, putOk (deviceTargetId m.dev)⟩ : MemberResult)),
      ?_, ?_, ?_⟩
    · simp only [control_group, hfind]
      rw [if_neg hne, if_neg (by simp [hdev])]
    · simp only [control_group, hfind]
      rw [if_neg hne, if_neg (by simp [hdev])]
    · simp [List.length_map]

/-- Witness for C5: the living-room `control_room` call with one failing and
one succeeding light. -/
theorem control_success_counting_witness :
    ∃ rs, (control_room (fun did => did == "la") [livingRoom] "Living Room"
        (some true) none none).results = some rs ∧
      (control_room (fun did => did == "la") [livingRoom] "Living Room"
        (some true) none none).success
        = decide (0 < (rs.filter (fun r => r.success)).length) ∧
      rs.length = (livingRoom.devices.filter
        (fun d => !(is_shade_device d))).length :=
  (control_success_counting.1 (fun did => did == "la") [livingRoom]
    "Living Room" (some true) none none livingRoom (by decide)
    (Or.inl (by simp)) (by decide))

/-- A room whose only device is shade-classified. -/
def shadesOnlyRoom : Room := ⟨"r3", "Shades Only", [blindDev]⟩

/-- Counterexample for C5 as stated: the room resolves and `on=true` is a
recognized field, but every member is a shade, so the source short-circuits:
overall success is true although zero per-member calls succeeded (none were
attempted), and no per-member results list is returned. -/
theorem control_room_success_without_members :
    (control_room (fun _ => true) [shadesOnlyRoom] "Shades Only" (some true)
        none none).success = true ∧
    (control_room (fun _ => true) [shadesOnlyRoom] "Shades Only" (some true)
        none none).results = none ∧
    (control_room (fun _ => true) [shadesOnlyRoom] "Shades Only" (some true)
        none none).puts = [] := by
  decide

/-- A concrete Blind Tilt device. -/
def blindTiltDemo : Device := ⟨"bt1", none, "Tilt Demo", none, some "Blind Tilt"⟩

/-- C8: the two recorded snapshots of the tilting-blind openness-to-position
mapping are not the same function: at openness 100 the `control_shade`
snapshot (`tools/devices.py`) commands position 100 while the
`control_room_shades` snapshot (`tools/rooms.py`) commands 50, and the
`open` action likewise commands 100 versus 50. -/
theorem blind_tilt_mappings_disagree :
    (∃ p : Int, 0 ≤ p ∧ p ≤ 100 ∧
      (control_shade_state_update blindTiltDemo "position" (some p)).brightness
        ≠ (get_shade_state_update blindTiltDemo "position" (some p)).brightness) ∧
    (control_shade_state_update blindTiltDemo "open" none).brightness
      = some 100 ∧
    (get_shade_state_update blindTiltDemo "open" none).brightness = some 50 ∧
    get_blind_tilt_position_for_openness 100 = 100 := by
  exact ⟨⟨100, by norm_num, le_refl _, by decide⟩, by decide, by decide, by decide⟩

/-- The fixed-TTL `Cache` class from `http.py`: `_data`, `_timestamp` and the
configured `ttl`. -/
structure Cache (α : Type) where
  ttl : ℚ
  data : Option α
  timestamp : ℚ

/-- `Cache.get`: the stored data unless absent or older than `ttl`. -/
def Cache.get (c : Cache α) (now : ℚ) : Option α :=
  match c.data with
  | none => none
  | some d => if now - c.timestamp > c.ttl then none else some d

/-- `Cache.set`. -/
def Cache.set (c : Cache α) (now : ℚ) (d : α) : Cache α :=
  { c with data := some d, timestamp := now }

/-- `Cache.clear`. -/
def Cache.clear (c : Cache α) : Cache α :=
  { c with data := none, timestamp := 0 }

/-- A validated tool call (`ToolCall` in `llm/common.py`). -/
structure ToolCall where
  name : String
  arguments : List (String × String)
  deriving DecidableEq, Repr

/-- One entry of the list `execute_tool_calls` returns: the tool, its
arguments, and whether the result was a success or a synthetic
duplicate-skip. -/
structure ToolResultEntry where
  tool : String
  arguments : List (String × String)
  success : Bool
  skipped : Bool
  deriving DecidableEq, Repr

/-- `RequestDeduplicator.make_key` hashes the canonical JSON of the name and
arguments; the hash is modelled by the canonical content itself (collisions
are ignored, key sorting omitted: the argument list is taken as canonical). -/
def make_key (tc : ToolCall) : String :=
  tc.name ++ String.join (tc.arguments.map (fun kv => "|" ++ kv.1 ++ "=" ++ kv.2))

/-- The mutable state `execute_tool_calls` touches: the shared tool
deduplicator and the two context caches of `context.py`
(`_context_cache`, `_context_json_cache`). -/
structure OrchestratorState where
  dedup : RequestDeduplicator
  context_cache : Cache String
  context_json_cache : Cache String

/-- `clear_context_cache` from `context.py`: clears both caches. -/
def clear_context_cache (st : OrchestratorState) : OrchestratorState :=
  { st with context_cache := st.context_cache.clear,
            context_json_cache := st.context_json_cache.clear }

/-- The per-call loop of `execute_tool_calls` (`llm/common.py`): duplicate
keys short-circuit to a synthetic skipped success; otherwise the tool runs
(`exec tc` gives the success flag of its result dict — false also covers
unknown tools and raised exceptions, which `execute_tool` converts to failed
results). `times i` is the wall-clock time of the `i`-th dedup check. -/
def execute_tool_calls_loop (exec : ToolCall → Bool) (times : Nat → ℚ) :
    List ToolCall → Nat → OrchestratorState → List ToolResultEntry →
    List ToolResultEntry × OrchestratorState
  | [], _, st, acc => (acc, st)
  | tc :: rest, i, st, acc =>
    let r := st.dedup.is_duplicate (times i) (make_key tc)
    let st' := { st with dedup := r.2 }
    if r.1 then
      execute_tool_calls_loop exec times rest (i + 1) st'
        (acc ++ [⟨tc.name, tc.arguments, true, true⟩])
    else
      execute_tool_calls_loop exec times rest (i + 1) st'
        (acc ++ [⟨tc.name, tc.arguments, exec tc, false⟩])

/-- `execute_tool_calls` from `llm/common.py`: run the batch, then
unconditionally `clear_context_cache()`. -/
def execute_tool_calls (exec : ToolCall → Bool) (times : Nat → ℚ)
    (st : OrchestratorState) (calls : List ToolCall) :
    List ToolResultEntry × OrchestratorState :=
  let r := execute_tool_calls_loop exec times calls 0 st []
  (r.1, clear_context_cache r.2)

/-- C10: after any `execute_tool_calls` batch — whatever the outcomes, the
duplicates skipped, the prior deduplicator and cache contents, even the
empty batch — both context caches are empty: the clear runs unconditionally
after the loop. -/
theorem execute_tool_calls_clears_context
    (exec : ToolCall → Bool) (times : Nat → ℚ) (st : OrchestratorState)
    (calls : List ToolCall) :
    (execute_tool_calls exec times st calls).2.context_cache.data = none ∧
    (execute_tool_calls exec times st calls).2.context_json_cache.data
      = none := by
  exact ⟨rfl, rfl⟩
